import Mathlib

/-!
Shallow embedding of the license-plate pipeline of `Task 06` (the service
variant `app.py` and the interactive variant `main.py`), together with
theorems settling the specification claims about it.

Strings are modelled by Lean `String` (a list of unicode code points, the
same data model as the Python `str` type); the ASCII fragment of the Python
`str.isalnum` / `str.upper` / `str.lower` is modelled explicitly on code
points.  OCR confidences (Python floats compared against the literal
`0.2`) are modelled as rationals.  The two machine-learning engines are
external collaborators: the candidate boxes of the detector and the raw
spans of the OCR engine enter the model as oracle inputs, and each pipeline
function additionally reports whether the OCR engine was invoked.
-/

namespace PlatePipeline

/-- One code point of the Python `str.isalnum`, restricted to the ASCII range:
digits `0`-`9`, letters `A`-`Z` and `a`-`z`. -/
def pyIsAlnum (c : Char) : Bool :=
  (48 ≤ c.toNat && c.toNat ≤ 57) || (65 ≤ c.toNat && c.toNat ≤ 90) ||
    (97 ≤ c.toNat && c.toNat ≤ 122)

/-- One code point of the Python `str.upper`, restricted to the ASCII range:
`a`-`z` shift down by 32, everything else is unchanged. -/
def pyToUpper (c : Char) : Char :=
  if 97 ≤ c.toNat && c.toNat ≤ 122 then Char.ofNat (c.toNat - 32) else c

/-- One code point of the Python `str.lower`, restricted to the ASCII range:
`A`-`Z` shift up by 32, everything else is unchanged. -/
def pyToLower (c : Char) : Char :=
  if 65 ≤ c.toNat && c.toNat ≤ 90 then Char.ofNat (c.toNat + 32) else c

/-- The Python expression `"".join(filter(str.isalnum, text)).upper()` — the per-span
cleaning step shared by both pipeline variants. -/
def cleanText (s : String) : String :=
  ((s.data.filter pyIsAlnum).map pyToUpper).asString

/-- The Python `str.lower` (ASCII fragment). -/
def pyLower (s : String) : String :=
  (s.data.map pyToLower).asString

/-- The Python expression `" ".join(tokens)`. -/
def joinSpace : List String → String
  | [] => ""
  | [t] => t
  | t :: ts => t ++ " " ++ joinSpace ts

/-- The Python substring test `needle in hay` on code-point lists. -/
def containsSub (needle : List Char) : List Char → Bool
  | [] => needle.isEmpty
  | c :: rest => needle.isPrefixOf (c :: rest) || containsSub needle rest

/-- An OCR span: `(text, conf)` as returned by `easyocr.readtext`
(the geometric bbox component is unused by the pipeline). -/
structure TextSpan where
  text : String
  conf : ℚ
deriving DecidableEq

/-- The confidence threshold `0.2` appearing in both variants. -/
def confidence_threshold : ℚ := mkRat 2 10

/-- The `texts` list of the function `extract_text` in `app.py`:
`["".join(filter(str.isalnum, t)).upper() for (_, t, conf) in raw if conf >= 0.2]`. -/
def extract_text_texts (raw : List TextSpan) : List String :=
  (raw.filter fun sp => decide (confidence_threshold ≤ sp.conf)).map
    fun sp => cleanText sp.text

/-- Line 61 of `app.py`:
`plate_text = " ".join(t for t in texts if t) or "No text detected"`. -/
def extract_text_plate (raw : List TextSpan) : String :=
  let joined := joinSpace ((extract_text_texts raw).filter fun t => !(t == ""))
  if joined = "" then "No text detected" else joined

/-- The Token Filter/Normalizer as the specification words it: keep exactly
the spans with confidence ≥ 0.2, clean each kept span to its upper-cased
alphanumeric characters, discard spans whose cleaned text is empty, join the
survivors with a single ASCII space in input order, and fall back to the
sentinel when zero strings survive.  Stated separately from
`extract_text_plate` so that the two can be compared. -/
def tokenFilter_spec (spans : List TextSpan) : String :=
  let surviving :=
    ((spans.filter fun sp => decide (confidence_threshold ≤ sp.conf)).map
      fun sp => cleanText sp.text).filter fun t => !(t == "")
  if surviving.isEmpty then "No text detected" else joinSpace surviving

/-- A decoded image: a `height × width` pixel grid (`image_np.shape`). -/
structure Img where
  height : Nat
  width : Nat
deriving DecidableEq

/-- A detector bounding box `(x1, y1, x2, y2)` (`boxes[0]`, integer
coordinates). -/
structure Box where
  x1 : Int
  y1 : Int
  x2 : Int
  y2 : Int
deriving DecidableEq

/-- The padded, clamped crop rectangle.  The crop accesses rows
`ylo ≤ y < yhi` and columns `xlo ≤ x < xhi` of the pixel grid. -/
structure CropRect where
  ylo : Int
  yhi : Int
  xlo : Int
  xhi : Int
deriving DecidableEq

/-- The slice bounds
`image_np[max(0, y1-pad) : min(h, y2+pad), max(0, x1-pad) : min(w, x2+pad)]`
used by both variants (`pad = 4` in `app.py`, `pad = 2` in `main.py`). -/
def cropRect (pad : Int) (img : Img) (b : Box) : CropRect :=
  { ylo := max 0 (b.y1 - pad), yhi := min (img.height : Int) (b.y2 + pad)
    xlo := max 0 (b.x1 - pad), xhi := min (img.width : Int) (b.x2 + pad) }

/-- `crop.size == 0`: the sliced rectangle has zero area. -/
def cropEmpty (pad : Int) (img : Img) (b : Box) : Bool :=
  decide ((cropRect pad img b).yhi ≤ (cropRect pad img b).ylo) ||
    decide ((cropRect pad img b).xhi ≤ (cropRect pad img b).xlo)

/-- The function `extract_text` of `app.py`, with the raw OCR spans for the crop
supplied as the oracle `raw`.  Returns the plate string together with a flag
recording whether `ocr_reader.readtext` was invoked. -/
def extract_text (img : Img) (b : Box) (raw : List TextSpan) : String × Bool :=
  if cropEmpty 4 img b then ("Crop Error", false)
  else (extract_text_plate raw, true)

/-- A wall-clock timestamp as captured by `datetime.now()`. -/
structure PyDateTime where
  year : Nat
  month : Nat
  day : Nat
  hour : Nat
  minute : Nat
  second : Nat
deriving DecidableEq

/-- Zero-padded two-digit field of `strftime` (`%d`, `%H`, `%M`, `%S`). -/
def pad2 (n : Nat) : String :=
  if n < 10 then "0" ++ toString n else toString n

/-- The `%b` month abbreviation of `strftime`. -/
def monthAbbrev : Nat → String
  | 1 => "Jan"
  | 2 => "Feb"
  | 3 => "Mar"
  | 4 => "Apr"
  | 5 => "May"
  | 6 => "Jun"
  | 7 => "Jul"
  | 8 => "Aug"
  | 9 => "Sep"
  | 10 => "Oct"
  | 11 => "Nov"
  | 12 => "Dec"
  | _ => ""

/-- The format `entry_time.strftime("%d %b %Y  %H:%M:%S")` (`app.py` slip row). -/
def strftime_app (t : PyDateTime) : String :=
  pad2 t.day ++ " " ++ monthAbbrev t.month ++ " " ++ toString t.year ++ "  " ++
    pad2 t.hour ++ ":" ++ pad2 t.minute ++ ":" ++ pad2 t.second

/-- The format `entry_time_obj.strftime("%d %b %Y, %H:%M:%S")` (`main.py` slip row). -/
def strftime_main (t : PyDateTime) : String :=
  pad2 t.day ++ " " ++ monthAbbrev t.month ++ " " ++ toString t.year ++ ", " ++
    pad2 t.hour ++ ":" ++ pad2 t.minute ++ ":" ++ pad2 t.second

/-- The textual content of a rendered receipt: canvas size, title, the
label/value rows in top-to-bottom order, and the footer caption.  Geometry,
colours and fonts are cosmetic and not modelled. -/
structure Receipt where
  width : Nat
  height : Nat
  title : String
  rows : List (String × String)
  footer : String
deriving DecidableEq

/-- The function `generate_slip` of `app.py`: a 600×380 canvas with title, divider and the
four label/value rows, plus the footer. -/
def generate_slip (plate_text : String) (entry_time : PyDateTime) : Receipt :=
  { width := 600, height := 380
    title := "PARKING RECEIPT"
    rows := [("Vehicle Plate", plate_text),
             ("Entry Time", strftime_app entry_time),
             ("Parking Fee", "Rs. 30.00"),
             ("Status", "ACTIVE")]
    footer := "Powered by Smart Parking System  •  YOLO + EasyOCR" }

/-- The `display_plate_text` substitution of `main.py` inside
`create_parking_slip`. -/
def display_plate_text (plate_text : String) : String :=
  if ¬ plate_text = "" ∧
      containsSub "failed".data (pyLower plate_text).data = false ∧
      containsSub "error".data (pyLower plate_text).data = false then
    plate_text
  else "N/A"

/-- The function `create_parking_slip` of `main.py`: a 600×400 canvas with title, divider
and three label/value rows (there is no Status row), plus the footer. -/
def create_parking_slip (plate_text : String) (entry_time_obj : PyDateTime) :
    Receipt :=
  { width := 600, height := 400
    title := "PARKING RECEIPT"
    rows := [("Vehicle Plate", display_plate_text plate_text),
             ("Entry Time", strftime_main entry_time_obj),
             ("Parking Fee", "Rs. 30.00")]
    footer := "Powered by Downlabs" }

/-- The `filtered_texts` list built by the loop in the `detect_and_ocr`
function of `main.py`: cleaned texts of the spans at or above the confidence
threshold whose cleaned text is non-empty. -/
def filtered_texts (ocr_results : List TextSpan) : List String :=
  ((ocr_results.filter fun sp => decide (confidence_threshold ≤ sp.conf)).map
    fun sp => cleanText sp.text).filter fun t => !(t == "")

/-- The `plate_text` computed by the `detect_and_ocr` function of `main.py` once OCR has
run: the empty-result sentinel when the engine returned no spans, the joined
filtered texts when some survive, and the filtered-out sentinel otherwise. -/
def detect_and_ocr_plate (ocr_results : List TextSpan) : String :=
  if ocr_results.isEmpty then "OCR failed (EasyOCR found no text)"
  else if (filtered_texts ocr_results).isEmpty then
    "OCR failed (Low confidence or non-alphanumeric)"
  else joinSpace (filtered_texts ocr_results)

/-- Result of the `detect_and_ocr` function of `main.py`: the retained box (if any), the
plate string, and whether `easyocr_reader.readtext` was invoked. -/
structure OcrOutcome where
  box : Option Box
  plate : String
  ocrInvoked : Bool
deriving DecidableEq

/-- The `detect_and_ocr` function of `main.py`, with the detector candidate
boxes and the OCR spans for the crop supplied as oracles. -/
def detect_and_ocr (boxes : List Box) (img : Img) (ocr_results : List TextSpan) :
    OcrOutcome :=
  match boxes with
  | [] => { box := none, plate := "No plate detected", ocrInvoked := false }
  | b :: _ =>
    if cropEmpty 2 img b then
      { box := some b, plate := "Crop Error", ocrInvoked := false }
    else
      { box := some b, plate := detect_and_ocr_plate ocr_results
        ocrInvoked := true }

/-- The hardcoded failure substrings of the `is_success` check in `main.py`. -/
def err_msgs : List String := ["error", "failed", "no plate", "n/a", "crop"]

/-- Line 355 of `main.py`: `is_success = not any(err_msg in
plate_text_result.lower() for err_msg in [...]) and bool(plate_text_result)`. -/
def is_success (plate_text_result : String) : Bool :=
  !(err_msgs.any fun e => containsSub e.data (pyLower plate_text_result).data) &&
    !(plate_text_result == "")

/-- What the interactive page shows for one processed upload: the plate
string and whether a parking slip was rendered. -/
structure UIOutcome where
  plate : String
  slipRendered : Bool
deriving DecidableEq

/-- The interactive (`main.py`) post-processing of a decoded upload: run
`detect_and_ocr`; when a box was detected, render the slip exactly when
`is_success` accepts the plate string; otherwise render nothing. -/
def ui_flow (boxes : List Box) (img : Img) (ocr_results : List TextSpan) :
    UIOutcome :=
  let o := detect_and_ocr boxes img ocr_results
  match o.box with
  | some _ => { plate := o.plate, slipRendered := is_success o.plate }
  | none => { plate := o.plate, slipRendered := false }

/-- The JSON/HTTP outcome of the `/process` route of `app.py` for a decoded
image: HTTP status, the `error` field, the `plate` field, and the rendered
slip (if one was generated). -/
structure HttpResponse where
  status : Nat
  error : Option String
  plate : Option String
  slip : Option Receipt
deriving DecidableEq

/-- The `/process` route of `app.py` from the point where the image has been
decoded, with detector boxes and OCR spans as oracles.  Returns the response
together with a flag recording whether the OCR engine was invoked. -/
def process (boxes : List Box) (img : Img) (raw : List TextSpan)
    (now : PyDateTime) : HttpResponse × Bool :=
  match boxes with
  | [] =>
    ({ status := 200, error := some "No number plate detected in image"
       plate := none, slip := none }, false)
  | b :: _ =>
    let r := extract_text img b raw
    ({ status := 200, error := none, plate := some r.1
       slip := some (generate_slip r.1 now) }, r.2)

/-! Helper lemmas shared by the claim theorems. -/

theorem toNat_ofNat_lt (n : Nat) (h : n < 55296) : (Char.ofNat n).toNat = n := by
  unfold Char.ofNat
  rw [dif_pos (Or.inl h)]
  rfl

theorem pyIsAlnum_pyToUpper {c : Char} (h : pyIsAlnum c = true) :
    pyIsAlnum (pyToUpper c) = true := by
  unfold pyToUpper
  split
  · next hc =>
    simp only [Bool.and_eq_true, decide_eq_true_eq] at hc
    simp only [pyIsAlnum, toNat_ofNat_lt (c.toNat - 32) (by omega), Bool.or_eq_true,
      Bool.and_eq_true, decide_eq_true_eq]
    omega
  · exact h

theorem data_eq_nil_iff (s : String) : s.data = [] ↔ s = "" := by
  constructor
  · intro h
    exact String.ext h
  · intro h
    rw [h]

theorem mem_cleanText {c : Char} {s : String} (h : c ∈ (cleanText s).data) :
    pyIsAlnum c = true := by
  simp only [cleanText, List.asString] at h
  obtain ⟨b, hb, rfl⟩ := List.mem_map.mp h
  exact pyIsAlnum_pyToUpper (List.mem_filter.mp hb).2

theorem joinSpace_ne_empty {l : List String} (hne : l ≠ [])
    (hall : ∀ t ∈ l, t ≠ "") : joinSpace l ≠ "" := by
  match l with
  | [] => exact absurd rfl hne
  | [t] => exact hall t (by simp)
  | t :: t' :: ts =>
    intro h
    rw [← data_eq_nil_iff] at h
    simp only [joinSpace, String.data_append, List.append_eq_nil] at h
    exact absurd ((data_eq_nil_iff t).mp h.1.1) (hall t (by simp))

theorem mem_joinSpace {c : Char} {l : List String}
    (h : c ∈ (joinSpace l).data) : (∃ t ∈ l, c ∈ t.data) ∨ c = ' ' := by
  match l with
  | [] => simp [joinSpace] at h
  | [t] =>
    exact Or.inl ⟨t, by simp, h⟩
  | t :: t' :: ts =>
    simp only [joinSpace, String.data_append, List.mem_append] at h
    rcases h with (h | h) | h
    · exact Or.inl ⟨t, by simp, h⟩
    · right
      simpa using h
    · rcases mem_joinSpace (l := t' :: ts) h with ⟨u, hu, hc⟩ | hsp
      · exact Or.inl ⟨u, by simp [hu], hc⟩
      · exact Or.inr hsp

theorem mem_filtered_texts {t : String} {raw : List TextSpan}
    (h : t ∈ filtered_texts raw) :
    t ≠ "" ∧ ∀ c ∈ t.data, pyIsAlnum c = true := by
  obtain ⟨hmem, hne⟩ := List.mem_filter.mp h
  obtain ⟨sp, _, rfl⟩ := List.mem_map.mp hmem
  refine ⟨by simpa using hne, fun c hc => mem_cleanText hc⟩



/-! Theorems settling the claims. -/

theorem joinSpace_eq_empty_iff {l : List String} (hall : ∀ t ∈ l, t ≠ "") :
    joinSpace l = "" ↔ l = [] := by
  constructor
  · intro h
    by_contra hne
    exact joinSpace_ne_empty hne hall h
  · intro h
    rw [h]
    rfl

/-- C1: the Token Filter/Normalizer of the service variant is exactly the
function the specification describes: keep the spans with confidence ≥ 0.2,
clean each kept span to its upper-cased alphanumeric characters (so a space
inside a single span is removed), discard spans whose cleaned text is empty,
join the survivors with one ASCII space in input order, and return the
sentinel when zero strings survive. -/
theorem extract_text_plate_eq_spec (raw : List TextSpan) :
    extract_text_plate raw = tokenFilter_spec raw := by
  simp only [extract_text_plate, tokenFilter_spec, extract_text_texts]
  set L := (((raw.filter fun sp => decide (confidence_threshold ≤ sp.conf)).map
    fun sp => cleanText sp.text).filter fun t => !(t == "")) with hL
  have hall : ∀ t ∈ L, t ≠ "" := by
    intro t ht
    simpa using (List.mem_filter.mp ht).2
  rcases eq_or_ne L [] with h | h
  · rw [h]
    rfl
  · rw [if_neg ((not_iff_not.mpr (joinSpace_eq_empty_iff hall)).mpr h)]
    rw [if_neg (by simpa using h)]

/-- C1 scenario witness: one span `("ABC 123", 0.9)` yields `"ABC123"`, as
computed by both the code-side and the spec-side definition. -/
theorem extract_text_plate_eq_spec_witness :
    extract_text_plate [⟨"ABC 123", mkRat 9 10⟩] = "ABC123" ∧
      tokenFilter_spec [⟨"ABC 123", mkRat 9 10⟩] = "ABC123" := by
  have h := extract_text_plate_eq_spec [⟨"ABC 123", mkRat 9 10⟩]
  exact ⟨by decide, h ▸ (by decide)⟩

/-- C2: when the detector yields zero candidate boxes, both variants return
their no-detection outcome without invoking the OCR engine, and the service
variant returns HTTP status 200 whose payload carries the explicit
"no plate" message rather than an error status. -/
theorem no_detection_short_circuit (img : Img) (raw : List TextSpan)
    (now : PyDateTime) :
    process [] img raw now =
      ({ status := 200, error := some "No number plate detected in image"
         plate := none, slip := none }, false) ∧
    detect_and_ocr [] img raw =
      { box := none, plate := "No plate detected", ocrInvoked := false } ∧
    ui_flow [] img raw = { plate := "No plate detected", slipRendered := false } := by
  exact ⟨rfl, rfl, rfl⟩

/-- C5: the padded crop rectangle is clamped: its low bounds are ≥ 0 and its
high bounds are ≤ the image extent, for every padding value, and therefore
every pixel index `(x, y)` inside the rectangle lies inside
`[0, width) × [0, height)`. -/
theorem cropRect_clamped (pad : Int) (img : Img) (b : Box) (x y : Int) :
    0 ≤ (cropRect pad img b).ylo ∧
    (cropRect pad img b).yhi ≤ (img.height : Int) ∧
    0 ≤ (cropRect pad img b).xlo ∧
    (cropRect pad img b).xhi ≤ (img.width : Int) ∧
    ((cropRect pad img b).xlo ≤ x → x < (cropRect pad img b).xhi →
      (cropRect pad img b).ylo ≤ y → y < (cropRect pad img b).yhi →
      0 ≤ x ∧ x < (img.width : Int) ∧ 0 ≤ y ∧ y < (img.height : Int)) := by
  simp only [cropRect]
  omega

/-- C5 witness: with the negative padding `-2` on a 10×10 image and the box
`(1,1,9,9)`, the pixel `(3,3)` of the crop rectangle is inside the image. -/
theorem cropRect_clamped_witness :
    0 ≤ (3 : Int) ∧ (3 : Int) < ((10 : Nat) : Int) ∧ 0 ≤ (3 : Int) ∧
      (3 : Int) < ((10 : Nat) : Int) := by
  have h := cropRect_clamped (-2) ⟨10, 10⟩ ⟨1, 1, 9, 9⟩ 3 3
  exact h.2.2.2.2 (by decide) (by decide) (by decide) (by decide)

/-- C7: the confidence threshold is the non-strict lower bound 0.2 = 1/5: a
single span strictly below it is discarded (the output falls back to the
sentinel), while a span with confidence exactly 0.2 is retained and goes
through cleaning. -/
theorem confidence_threshold_boundary (t : String) (q : ℚ) :
    confidence_threshold = 1/5 ∧
    (q < confidence_threshold → extract_text_plate [⟨t, q⟩] = "No text detected") ∧
    extract_text_plate [⟨t, confidence_threshold⟩] =
      (if cleanText t = "" then "No text detected" else cleanText t) := by
  refine ⟨by norm_num [confidence_threshold, Rat.mkRat_eq_div], ?_, ?_⟩
  · intro hq
    have hd : decide (confidence_threshold ≤ q) = false := by
      simp [not_le.mpr hq]
    simp [extract_text_plate, extract_text_texts, List.filter, hd, joinSpace]
  · have hd : decide (confidence_threshold ≤ confidence_threshold) = true := by
      simp
    rcases eq_or_ne (cleanText t) "" with h | h
    · simp [extract_text_plate, extract_text_texts, List.filter, hd, h, joinSpace]
    · have hb : (cleanText t == "") = false := by simp [h]
      simp [extract_text_plate, extract_text_texts, List.filter, hd, hb, joinSpace, h]

/-- C7 witness: confidence 0.19999 is discarded, confidence exactly 0.2 is
retained. -/
theorem confidence_threshold_boundary_witness :
    extract_text_plate [⟨"XY12", mkRat 19999 100000⟩] = "No text detected" ∧
      extract_text_plate [⟨"XY12", confidence_threshold⟩] = "XY12" := by
  have h := confidence_threshold_boundary "XY12" (mkRat 19999 100000)
  refine ⟨h.2.1 (by decide), ?_⟩
  rw [h.2.2]
  decide


theorem filtered_texts_eq (raw : List TextSpan) :
    filtered_texts raw = (extract_text_texts raw).filter fun t => !(t == "") := rfl

theorem joinSpace_chars {L : List String}
    (h : ∀ t ∈ L, t ≠ "" ∧ ∀ c ∈ t.data, pyIsAlnum c = true) :
    ∀ c ∈ (joinSpace L).data, pyIsAlnum c = true ∨ c = ' ' := by
  intro c hc
  rcases mem_joinSpace hc with ⟨t, ht, hct⟩ | hsp
  · exact Or.inl ((h t ht).2 c hct)
  · exact Or.inr hsp

/-- C4: the plate reading is never the empty string.  In the service variant
it is either the sentinel or a non-empty string of alphanumeric characters
and spaces; in the interactive variant it is one of the two OCR-failure
sentinels or a non-empty string of alphanumeric characters and spaces. -/
theorem plate_reading_never_empty (raw : List TextSpan) :
    (extract_text_plate raw = "No text detected" ∨
      (extract_text_plate raw ≠ "" ∧
        ∀ c ∈ (extract_text_plate raw).data, pyIsAlnum c = true ∨ c = ' ')) ∧
    (detect_and_ocr_plate raw = "OCR failed (EasyOCR found no text)" ∨
      detect_and_ocr_plate raw = "OCR failed (Low confidence or non-alphanumeric)" ∨
      (detect_and_ocr_plate raw ≠ "" ∧
        ∀ c ∈ (detect_and_ocr_plate raw).data, pyIsAlnum c = true ∨ c = ' ')) := by
  have hprops : ∀ t ∈ filtered_texts raw, t ≠ "" ∧ ∀ c ∈ t.data, pyIsAlnum c = true :=
    fun t ht => mem_filtered_texts ht
  have hne : filtered_texts raw ≠ [] →
      joinSpace (filtered_texts raw) ≠ "" ∧
      ∀ c ∈ (joinSpace (filtered_texts raw)).data, pyIsAlnum c = true ∨ c = ' ' :=
    fun hL => ⟨joinSpace_ne_empty hL fun t ht => (hprops t ht).1, joinSpace_chars hprops⟩
  constructor
  · rcases eq_or_ne (filtered_texts raw) [] with hL | hL
    · left
      simp [extract_text_plate, ← filtered_texts_eq, hL, joinSpace]
    · right
      have hE : extract_text_plate raw = joinSpace (filtered_texts raw) := by
        simp only [extract_text_plate, ← filtered_texts_eq]
        rw [if_neg (hne hL).1]
      rw [hE]
      exact hne hL
  · by_cases h0 : raw.isEmpty
    · left
      simp [detect_and_ocr_plate, h0]
    · rcases eq_or_ne (filtered_texts raw) [] with hL | hL
      · right
        left
        simp [detect_and_ocr_plate, h0, hL]
      · right
        right
        have hE : detect_and_ocr_plate raw = joinSpace (filtered_texts raw) := by
          simp [detect_and_ocr_plate, h0, hL]
        rw [hE]
        exact hne hL

/-- C4 witness: a concrete recognized reading is non-empty. -/
theorem plate_reading_never_empty_witness :
    extract_text_plate [⟨"AB", mkRat 9 10⟩] ≠ "" := by
  rcases (plate_reading_never_empty [⟨"AB", mkRat 9 10⟩]).1 with h | h
  · exact absurd h (by decide)
  · exact h.1

/-- C6 counterexample: token filtering is not idempotent on multi-token
outputs.  The two spans `("AB", 0.9)` and `("CD", 0.9)` filter to `"AB CD"`,
but feeding `"AB CD"` back as one span with high confidence strips its
internal space and yields `"ABCD"`. -/
theorem token_filter_not_idempotent :
    extract_text_plate [⟨"AB", mkRat 9 10⟩, ⟨"CD", mkRat 9 10⟩] = "AB CD" ∧
    extract_text_plate [⟨"AB CD", mkRat 9 10⟩] = "ABCD" ∧
    ("ABCD" : String) ≠ "AB CD" := by decide

/-- C6 amended: token filtering is idempotent on space-free filter outputs:
a non-empty string of upper-case-fixed alphanumeric characters fed back as a
single span at or above the threshold is returned unchanged (a multi-token
output instead has its joining spaces removed). -/
theorem token_filter_idempotent_single_token (s : String) (q : ℚ)
    (hne : s ≠ "") (hs : ∀ c ∈ s.data, pyIsAlnum c = true ∧ pyToUpper c = c)
    (hq : confidence_threshold ≤ q) :
    extract_text_plate [⟨s, q⟩] = s := by
  have hclean : cleanText s = s := by
    have h1 : s.data.filter pyIsAlnum = s.data :=
      List.filter_eq_self.mpr fun c hc => (hs c hc).1
    have h2 : s.data.map pyToUpper = s.data := by
      conv_rhs => rw [← List.map_id s.data]
      exact List.map_congr_left fun c hc => (hs c hc).2
    simp only [cleanText, h1, h2]
    rfl
  have hd : decide (confidence_threshold ≤ q) = true := decide_eq_true hq
  have hb : (s == "") = false := by simp [hne]
  simp [extract_text_plate, extract_text_texts, List.filter, hd, hclean, hb,
    joinSpace, hne]

/-- C6 amended witness: `"ABC123"` is a fixed point of the filter. -/
theorem token_filter_idempotent_single_token_witness :
    extract_text_plate [⟨"ABC123", mkRat 9 10⟩] = "ABC123" :=
  token_filter_idempotent_single_token "ABC123" (mkRat 9 10) (by decide)
    (by decide) (by decide)

/-- C9 counterexample: the service variant collapses the two diagnostic
situations into one string: OCR returning no spans at all and OCR returning
only spans that the confidence/alphanumeric filter rejects both yield the
same sentinel `"No text detected"`. -/
theorem recognition_states_collapsed_in_service :
    extract_text_plate [] = "No text detected" ∧
    extract_text_plate [⟨"##", mkRat 9 10⟩] = "No text detected" := by decide

/-- C9 amended: the interactive variant (and only it) distinguishes the two
diagnostic outcomes: an empty OCR result yields the sentinel
`"OCR failed (EasyOCR found no text)"`, while a non-empty OCR result whose
spans are all rejected by the filter yields the distinct sentinel
`"OCR failed (Low confidence or non-alphanumeric)"`. -/
theorem recognition_states_distinct_in_interactive (raw : List TextSpan) :
    detect_and_ocr_plate [] = "OCR failed (EasyOCR found no text)" ∧
    (raw ≠ [] → filtered_texts raw = [] →
      detect_and_ocr_plate raw = "OCR failed (Low confidence or non-alphanumeric)") ∧
    ("OCR failed (EasyOCR found no text)" : String) ≠
      "OCR failed (Low confidence or non-alphanumeric)" := by
  refine ⟨rfl, ?_, by decide⟩
  intro h0 h1
  simp [detect_and_ocr_plate, h0, h1]

/-- C9 amended witness: the span `("##", 0.9)` survives neither filter stage,
and the two interactive sentinels are produced and differ. -/
theorem recognition_states_distinct_in_interactive_witness :
    detect_and_ocr_plate [⟨"##", mkRat 9 10⟩] =
      "OCR failed (Low confidence or non-alphanumeric)" ∧
    detect_and_ocr_plate [] = "OCR failed (EasyOCR found no text)" := by
  have h := recognition_states_distinct_in_interactive [⟨"##", mkRat 9 10⟩]
  exact ⟨h.2.1 (by decide) (by decide), h.1⟩


/-- C3 counterexample: the interactive variant does not render a receipt on
a zero-area crop.  On a 0×0 image every crop collapses, `detect_and_ocr`
reports `"Crop Error"`, and the page renders no parking slip. -/
theorem crop_error_no_receipt_in_interactive :
    cropEmpty 2 ⟨0, 0⟩ ⟨0, 0, 0, 0⟩ = true ∧
    ui_flow [⟨0, 0, 0, 0⟩] ⟨0, 0⟩ [] =
      { plate := "Crop Error", slipRendered := false } := by decide

/-- C3 amended: whenever the padded, clamped crop rectangle has zero area in
the own padding of each variant, both variants return the distinguished
`"Crop Error"` reading without invoking the recognizer; the service variant
still renders a receipt carrying that sentinel inside a 200 response, while
the interactive variant renders no receipt. -/
theorem crop_error_amended (img : Img) (b : Box) (rest : List Box)
    (raw : List TextSpan) (now : PyDateTime)
    (h4 : cropEmpty 4 img b = true) (h2 : cropEmpty 2 img b = true) :
    process (b :: rest) img raw now =
      ({ status := 200, error := none, plate := some "Crop Error"
         slip := some (generate_slip "Crop Error" now) }, false) ∧
    ui_flow (b :: rest) img raw =
      { plate := "Crop Error", slipRendered := false } := by
  constructor
  · simp [process, extract_text, h4]
  · have hsucc : is_success "Crop Error" = false := by decide
    simp [ui_flow, detect_and_ocr, h2, hsucc]

/-- C3 amended witness: the concrete zero-area crop on a 0×0 image. -/
theorem crop_error_amended_witness :
    process [⟨0, 0, 0, 0⟩] ⟨0, 0⟩ [] ⟨2025, 10, 12, 0, 0, 0⟩ =
      ({ status := 200, error := none, plate := some "Crop Error"
         slip := some (generate_slip "Crop Error" ⟨2025, 10, 12, 0, 0, 0⟩) },
        false) ∧
    ui_flow [⟨0, 0, 0, 0⟩] ⟨0, 0⟩ [] =
      { plate := "Crop Error", slipRendered := false } :=
  crop_error_amended ⟨0, 0⟩ ⟨0, 0, 0, 0⟩ [] [] ⟨2025, 10, 12, 0, 0, 0⟩
    (by decide) (by decide)

/-- C8 counterexample: the receipt of the interactive variant has only three
label/value rows — there is no `("Status", "ACTIVE")` row. -/
theorem interactive_receipt_missing_status_row :
    (create_parking_slip "ABC123" ⟨2025, 10, 12, 9, 30, 0⟩).rows.map Prod.fst =
      ["Vehicle Plate", "Entry Time", "Parking Fee"] ∧
    ("Status", "ACTIVE") ∉
      (create_parking_slip "ABC123" ⟨2025, 10, 12, 9, 30, 0⟩).rows := by decide

/-- C8 amended: for every plate reading and timestamp, the receipt of the
service variant carries the title and exactly the four rows Vehicle Plate, Entry
Time (day-month-year hour:minute:second), the fixed fee and the fixed
Status "ACTIVE"; the receipt of the interactive variant carries the title and
only the first three of those fields, with no Status row. -/
theorem receipt_fields_amended (plate_text : String) (t : PyDateTime) :
    (generate_slip plate_text t).title = "PARKING RECEIPT" ∧
    (generate_slip plate_text t).rows =
      [("Vehicle Plate", plate_text), ("Entry Time", strftime_app t),
       ("Parking Fee", "Rs. 30.00"), ("Status", "ACTIVE")] ∧
    (create_parking_slip plate_text t).title = "PARKING RECEIPT" ∧
    (create_parking_slip plate_text t).rows =
      [("Vehicle Plate", display_plate_text plate_text),
       ("Entry Time", strftime_main t), ("Parking Fee", "Rs. 30.00")] ∧
    ∀ r ∈ (create_parking_slip plate_text t).rows, r.1 ≠ "Status" := by
  refine ⟨rfl, rfl, rfl, rfl, ?_⟩
  intro r hr
  simp only [create_parking_slip, List.mem_cons, List.not_mem_nil, or_false] at hr
  rcases hr with rfl | rfl | rfl
  · exact (by decide : ("Vehicle Plate" : String) ≠ "Status")
  · exact (by decide : ("Entry Time" : String) ≠ "Status")
  · exact (by decide : ("Parking Fee" : String) ≠ "Status")

/-- C8 amended witness: concrete row labels of both receipts. -/
theorem receipt_fields_amended_witness :
    (generate_slip "ABC123" ⟨2025, 10, 12, 9, 30, 0⟩).rows.map Prod.fst =
      ["Vehicle Plate", "Entry Time", "Parking Fee", "Status"] ∧
    ("Vehicle Plate" : String) ≠ "Status" := by
  have h := receipt_fields_amended "ABC123" ⟨2025, 10, 12, 9, 30, 0⟩
  refine ⟨by rw [h.2.1]; rfl, ?_⟩
  exact h.2.2.2.2 ("Vehicle Plate", display_plate_text "ABC123")
    (by rw [h.2.2.2.1]; exact List.mem_cons_self _ _)

theorem is_success_false_iff (p : String) :
    is_success p = false ↔
      ((err_msgs.any fun e => containsSub e.data (pyLower p).data) = true ∨
        p = "") := by
  constructor
  · intro h
    by_contra hcon
    push_neg at hcon
    obtain ⟨hA, hB⟩ := hcon
    have hA' : (err_msgs.any fun e => containsSub e.data (pyLower p).data) = false := by
      simpa using hA
    have hB' : (p == "") = false := by simp [hB]
    simp [is_success, hA', hB'] at h
  · intro h
    rcases h with h | h
    · simp [is_success, h]
    · simp [is_success, h]

theorem ui_flow_cons (b : Box) (rest : List Box) (img : Img)
    (raw : List TextSpan) :
    ui_flow (b :: rest) img raw =
      { plate := (detect_and_ocr (b :: rest) img raw).plate
        slipRendered := is_success (detect_and_ocr (b :: rest) img raw).plate } := by
  unfold ui_flow detect_and_ocr
  by_cases h : cropEmpty 2 img b = true <;> simp [h]

/-- C10 counterexample: the span `("NA-123", 0.9)` is genuinely recognized,
cleans to the reading `"NA123"` (which contains the substring `"NA"`), and
the interactive page treats it as a success and renders the parking slip. -/
theorem substring_check_na_counterexample :
    (ui_flow [⟨2, 2, 8, 8⟩] ⟨20, 20⟩ [⟨"NA-123", mkRat 9 10⟩]).plate = "NA123" ∧
    (ui_flow [⟨2, 2, 8, 8⟩] ⟨20, 20⟩ [⟨"NA-123", mkRat 9 10⟩]).slipRendered = true ∧
    containsSub "NA".data "NA123".data = true := by decide

/-- C10 amended: in the interactive variant a processed upload renders no
parking slip exactly when the lower-cased plate string contains one of the
substrings "error", "failed", "no plate", "n/a", "crop", or is empty — so a
genuinely recognized reading containing "CROP" is rejected, while "N/A" can
never occur inside a cleaned (alphanumeric/space) reading. -/
theorem failure_by_substring_match (boxes : List Box) (img : Img)
    (raw : List TextSpan) :
    (ui_flow boxes img raw).slipRendered = false ↔
      ((err_msgs.any fun e =>
          containsSub e.data (pyLower (ui_flow boxes img raw).plate).data) = true ∨
        (ui_flow boxes img raw).plate = "") := by
  cases boxes with
  | nil =>
    rw [show ui_flow [] img raw =
      { plate := "No plate detected", slipRendered := false } from rfl]
    decide
  | cons b rest =>
    rw [ui_flow_cons]
    exact is_success_false_iff _

/-- C10 amended witness: the no-detection outcome renders no slip, and its
plate string contains the failure substring "no plate". -/
theorem failure_by_substring_match_witness :
    (ui_flow [] ⟨0, 0⟩ []).slipRendered = false :=
  (failure_by_substring_match [] ⟨0, 0⟩ []).mpr (Or.inl (by decide))

end PlatePipeline
